import Mathlib

/-!
Verification of the SOLID example repository (five Python scripts under
`src/SOLID/`).  Each Python class relevant to the checked properties is
shallowly embedded: pure methods become Lean functions, per-instance
mutable attributes become explicit state records, Python exceptions
become `Except` values, Python dicts become association lists with
first-match lookup, and Python numbers are modelled by `ℚ`.
-/

/-- Python exceptions that appear in the sources, by kind and message. -/
inductive PyError where
  | notImplementedError (msg : String)
  | typeError (msg : String)
  | valueError (msg : String)
deriving DecidableEq

/-- Python values stored in the dictionaries the examples pass around.
Floats are modelled by `ℚ` (all float literals in the sources are exact
decimals). -/
inductive PyVal where
  | str (s : String)
  | int (n : Int)
  | rat (q : ℚ)
  | bool (b : Bool)
  | none
deriving DecidableEq

/-- Whether a Python value is a `str`. -/
def PyVal.isStr : PyVal → Bool
  | .str _ => true
  | _ => false

/-- Python `str(v)` as used inside f-strings (floats approximated by the
`ℚ` printer; the claims never depend on float formatting). -/
def PyVal.pyStr : PyVal → String
  | .str s => s
  | .int n => toString n
  | .rat q => toString q
  | .bool b => if b then "True" else "False"
  | .none => "None"

/-- A Python `dict` with string keys. -/
abbrev Pdict := List (String × PyVal)

/-- Lookup in an association list, first match (Python dict keys are
unique, and `dictSet` below keeps them unique). -/
def dictGet {α β : Type} [DecidableEq α] (l : List (α × β)) (k : α) : Option β :=
  (l.find? (fun p => decide (p.1 = k))).map Prod.snd

/-- Python `d[k] = v`: replace any existing binding of `k`. -/
def dictSet {α β : Type} [DecidableEq α] (l : List (α × β)) (k : α) (v : β) :
    List (α × β) :=
  (k, v) :: l.filter (fun p => decide (p.1 ≠ k))

/-- Python `d.get(k, default)` on a string-keyed dict of Python values. -/
def pdictGet (d : Pdict) (k : String) (default : PyVal) : PyVal :=
  match dictGet d k with
  | some v => v
  | none => default

/-- Python `d.get(k, default)` on a dict whose values are strings, as the
payment processors consume `payment_details`. -/
def strDictGet (d : List (String × String)) (k : String) (default : String) : String :=
  match dictGet d k with
  | some v => v
  | none => default

namespace Ocp

/-- Model of the Python float constant `math.pi` used by `GoodCircle`. -/
def mathPi : ℚ := 3.141592653589793

/-- The `Shape` interface of `ocp_example.py` together with its four
concrete variants (`GoodRectangle`, `GoodCircle`, `Triangle`,
`Pentagon`). -/
inductive Shape where
  | GoodRectangle (width height : ℚ)
  | GoodCircle (radius : ℚ)
  | Triangle (base height : ℚ)
  | Pentagon (side apothem : ℚ)
deriving DecidableEq

/-- Each variant's `calculate_area`, transcribed from `ocp_example.py`. -/
def Shape.calculate_area : Shape → ℚ
  | .GoodRectangle width height => width * height
  | .GoodCircle radius => mathPi * radius ^ 2
  | .Triangle base height => (base * height) / 2
  | .Pentagon side apothem => (5 * side) * apothem / 2

/-- `GoodAreaCalculator.calculate_area`: pure dispatch on the `Shape`
interface, no branching on the concrete type. -/
def GoodAreaCalculator.calculate_area (shape : Shape) : ℚ :=
  shape.calculate_area

/-- The pre-existing variant family before `Triangle` and `Pentagon`
were added (the source marks those two as added afterwards); used for
the closed-for-modification comparison of C4. -/
inductive ShapeBeforeExtension where
  | GoodRectangle (width height : ℚ)
  | GoodCircle (radius : ℚ)
deriving DecidableEq

/-- `calculate_area` of the pre-existing variants, same bodies as in the
source. -/
def ShapeBeforeExtension.calculate_area : ShapeBeforeExtension → ℚ
  | .GoodRectangle width height => width * height
  | .GoodCircle radius => mathPi * radius ^ 2

/-- Inclusion of the pre-existing variants into the extended family. -/
def ShapeBeforeExtension.toShape : ShapeBeforeExtension → Shape
  | .GoodRectangle width height => .GoodRectangle width height
  | .GoodCircle radius => .GoodCircle radius

/-- The `DiscountStrategy` interface of `ocp_example.py` with its five
concrete variants; `HolidayDiscount` carries its constructor
arguments. -/
inductive DiscountStrategy where
  | RegularCustomerDiscount
  | VIPCustomerDiscount
  | StudentDiscount
  | SeniorDiscount
  | HolidayDiscount (holiday_name : String) (discount_percentage : ℚ)
deriving DecidableEq

/-- Each variant's `apply_discount`, transcribed from `ocp_example.py`. -/
def DiscountStrategy.apply_discount : DiscountStrategy → ℚ → ℚ
  | .RegularCustomerDiscount, amount => amount * 0.95
  | .VIPCustomerDiscount, amount => amount * 0.85
  | .StudentDiscount, amount => amount * 0.80
  | .SeniorDiscount, amount => amount * 0.75
  | .HolidayDiscount _ discount_percentage, amount =>
      amount * (1 - discount_percentage / 100)

/-- `PriceCalculator.calculate_final_price`: dispatches to the injected
strategy. -/
def PriceCalculator.calculate_final_price (original_price : ℚ)
    (discount_strategy : DiscountStrategy) : ℚ :=
  discount_strategy.apply_discount original_price

/-- A strategy whose constructor arguments keep the discount percentage
inside [0, 100]; the four fixed strategies always qualify. -/
def DiscountStrategy.percentageInRange : DiscountStrategy → Bool
  | .HolidayDiscount _ discount_percentage =>
      decide (0 ≤ discount_percentage) && decide (discount_percentage ≤ 100)
  | _ => true

/-- The `PaymentProcessor` interface of `ocp_example.py` with its four
concrete variants. -/
inductive PaymentProcessor where
  | CreditCardProcessor
  | PayPalProcessor
  | BitcoinProcessor
  | BankTransferProcessor
deriving DecidableEq

/-- Each variant's `process_payment`, transcribed from `ocp_example.py`.
Python's randomized string `hash` is passed in as a parameter `h`
(Python's `hash(x) % 10000` is a nonnegative value below 10000, modelled
by `Nat` modulo).  The returned dict literal of the source is kept
verbatim: two keys, both bound to strings. -/
def PaymentProcessor.process_payment (h : String → Nat) :
    PaymentProcessor → ℚ → List (String × String) → Pdict
  | .CreditCardProcessor, _, payment_details =>
      let card_number := strDictGet payment_details "card_number" "XXXX"
      [("status", .str "success"),
       ("transaction_id", .str ("CC_" ++ toString (h card_number % 10000)))]
  | .PayPalProcessor, _, payment_details =>
      let email := strDictGet payment_details "email" "usuario@ejemplo.com"
      [("status", .str "success"),
       ("transaction_id", .str ("PP_" ++ toString (h email % 10000)))]
  | .BitcoinProcessor, _, payment_details =>
      let wallet := strDictGet payment_details "wallet_address" "XXXX"
      [("status", .str "success"),
       ("transaction_id", .str ("BTC_" ++ toString (h wallet % 10000)))]
  | .BankTransferProcessor, _, payment_details =>
      let account := strDictGet payment_details "account_number" "XXXX"
      [("status", .str "success"),
       ("transaction_id", .str ("BT_" ++ toString (h account % 10000)))]

end Ocp

namespace Lsp

/-- `BadPenguin` of `lsp_example.py`: its constructor stores the name
"Pingüino"; the claims quantify over every instance, so the field is
kept general. -/
structure BadPenguin where
  name : String
deriving DecidableEq

/-- `BadPenguin.fly`: always raises `NotImplementedError`. -/
def BadPenguin.fly (self : BadPenguin) : Except PyError Unit :=
  .error (.notImplementedError "Los pingüinos no pueden volar!")

/-- `BadBicycle` of `lsp_example.py` with its `brand` attribute. -/
structure BadBicycle where
  brand : String
deriving DecidableEq

/-- `BadBicycle.start_engine`: always raises `NotImplementedError`. -/
def BadBicycle.start_engine (self : BadBicycle) : Except PyError Unit :=
  .error (.notImplementedError "Las bicicletas no tienen motor!")

/-- State of a `Rectangle` of `lsp_example.py`: the `color` attribute and
the protected `_width` / `_height` attributes. -/
structure Rectangle where
  color : String
  width : ℚ
  height : ℚ
deriving DecidableEq

/-- `Rectangle.calculate_area`. -/
def Rectangle.calculate_area (self : Rectangle) : ℚ :=
  self.width * self.height

/-- `Rectangle.calculate_perimeter`. -/
def Rectangle.calculate_perimeter (self : Rectangle) : ℚ :=
  2 * (self.width + self.height)

/-- `Square.__init__(color, side)`: calls the `Rectangle` constructor
with the side for both dimensions. -/
def Square.init (color : String) (side : ℚ) : Rectangle :=
  { color := color, width := side, height := side }

/-- `Square.set_width`: overridden to keep the square shape. -/
def Square.set_width (self : Rectangle) (width : ℚ) : Rectangle :=
  { self with width := width, height := width }

/-- `Square.set_height`: overridden to keep the square shape. -/
def Square.set_height (self : Rectangle) (height : ℚ) : Rectangle :=
  { self with height := height, width := height }

/-- One setter call on a square (the only mutators `Square` exposes
besides the inherited getters). -/
inductive SetterCall where
  | set_width (width : ℚ)
  | set_height (height : ℚ)
deriving DecidableEq

/-- Dynamic dispatch of one setter call on a `Square` instance. -/
def Square.applyCall (self : Rectangle) : SetterCall → Rectangle
  | .set_width width => Square.set_width self width
  | .set_height height => Square.set_height self height

/-- A sequence of setter calls on a `Square` instance, left to right. -/
def Square.applyCalls (self : Rectangle) (calls : List SetterCall) : Rectangle :=
  calls.foldl Square.applyCall self

/-- The argument of the most recent setter call, or the constructor side
when no setter was called. -/
def lastSetterArg (side : ℚ) (calls : List SetterCall) : ℚ :=
  calls.foldl
    (fun _ c => match c with | .set_width width => width | .set_height height => height)
    side

end Lsp

namespace Isp

/-- The abstract method names `BadMultiFunctionDevice` declares
(`isp_example.py`, the eight `@abstractmethod` members). -/
def BadMultiFunctionDevice.abstractmethods : List String :=
  ["print_document", "print_color", "scan_document", "scan_to_email",
   "send_fax", "receive_fax", "copy_document", "copy_color"]

/-- The method names `BadSimplePrinter` defines in its class body: it
overrides every abstract method of `BadMultiFunctionDevice` (most of
them as stubs that raise). -/
def BadSimplePrinter.defined_methods : List String :=
  ["print_document", "print_color", "scan_document", "scan_to_email",
   "send_fax", "receive_fax", "copy_document", "copy_color"]

/-- Python ABC instantiation: constructing an instance of a concrete
class succeeds exactly when every abstract method of its bases is
overridden; otherwise Python raises `TypeError` at the constructor call. -/
def pythonInstantiate (abstract defined : List String) : Except PyError Unit :=
  if abstract.all (fun m => decide (m ∈ defined)) then .ok ()
  else .error (.typeError "cannot instantiate abstract class")

/-- `BadSimplePrinter.print_document`: prints and returns. -/
def BadSimplePrinter.print_document (document : String) : Except PyError (List String) :=
  .ok ["Imprimiendo: " ++ document]

/-- `BadSimplePrinter.print_color`: present but stubbed to raise. -/
def BadSimplePrinter.print_color (document : String) : Except PyError (List String) :=
  .error (.notImplementedError "Esta impresora no soporta color")

/-- `BadSimplePrinter.scan_document`: present but stubbed to raise. -/
def BadSimplePrinter.scan_document : Except PyError (List String) :=
  .error (.notImplementedError "Esta impresora no puede escanear")

/-- Modelled from the spec: the `CapabilityRegistry` of §4.1 (its
`Capability` and `Variant` records and the `register_variant` operation)
is specified but not present under `src/`; only the abstract-base-class
examples are.  A `Capability` is a named contract with its required
method names. -/
structure Capability where
  name : String
  methods : List String
deriving DecidableEq

/-- Modelled from the spec: a `Variant` is a concrete fulfiller,
identified by a label, exposing a set of method names. -/
structure Variant where
  label : String
  methods : List String
deriving DecidableEq

/-- Modelled from the spec: the error taxonomy of §7. -/
inductive RegistryError where
  | duplicateCapability
  | incompleteImplementation
  | unsupportedOperation
  | variantExecution
deriving DecidableEq

/-- Modelled from the spec: `register_variant` associates a variant with
the capabilities it claims and fails with `IncompleteImplementationError`
at registration time if the variant does not expose every method required
by each claimed capability. -/
def register_variant (v : Variant) (caps : List Capability) :
    Except RegistryError Unit :=
  if caps.all (fun c => c.methods.all (fun m => decide (m ∈ v.methods))) then .ok ()
  else .error .incompleteImplementation

end Isp

namespace Dip

/-- The `MessageSender` interface of `dip_example.py` with its four
concrete variants and their constructor attributes. -/
inductive MessageSender where
  | EmailService (smtp_server : String)
  | SMSService (provider : String)
  | WhatsAppService
  | PushNotificationService (platform : String)
deriving DecidableEq

/-- Each variant's `send_message`, transcribed from `dip_example.py`:
the printed lines are returned alongside the `True` result. -/
def MessageSender.send_message :
    MessageSender → String → String → List String × Bool
  | .EmailService smtp_server, message, recipient =>
      (["[Email via " ++ smtp_server ++ "] To: " ++ recipient,
        "Message: " ++ message], true)
  | .SMSService provider, message, recipient =>
      (["[SMS via " ++ provider ++ "] To: " ++ recipient,
        "Message: " ++ message], true)
  | .WhatsAppService, message, recipient =>
      (["[WhatsApp] To: " ++ recipient,
        "Message: " ++ message], true)
  | .PushNotificationService platform, message, recipient =>
      (["[Push " ++ platform ++ "] To device: " ++ recipient,
        "Notification: " ++ message], true)

/-- Each variant's `get_sender_type`. -/
def MessageSender.get_sender_type : MessageSender → String
  | .EmailService _ => "Email"
  | .SMSService _ => "SMS"
  | .WhatsAppService => "WhatsApp"
  | .PushNotificationService _ => "Push Notification"

/-- `NotificationService`: holds the injected `MessageSender`. -/
structure NotificationService where
  message_sender : MessageSender
deriving DecidableEq

/-- `NotificationService.send_notification`, transcribed from
`dip_example.py`: prints, delegates, prints the outcome and returns the
delegate's `success` value. -/
def NotificationService.send_notification (self : NotificationService)
    (message recipient : String) : List String × Bool :=
  let header := "Preparando notificación via " ++ self.message_sender.get_sender_type
  let result := self.message_sender.send_message message recipient
  let success := result.2
  let outcome :=
    if success then "✅ Notificación enviada exitosamente"
    else "❌ Error al enviar notificación"
  (header :: result.1 ++ [outcome], success)

/-- State of a `DatabaseRepository` instance: the constructor argument
and the per-instance `data_store` dict created in `__init__`. -/
structure DatabaseRepository where
  connection_string : String
  data_store : List (PyVal × Pdict)
deriving DecidableEq

/-- `DatabaseRepository.save`: stores the dict under its `id` value
(default `'unknown'`) and returns `True`. -/
def DatabaseRepository.save (self : DatabaseRepository) (data : Pdict) :
    DatabaseRepository × Bool :=
  let data_id := pdictGet data "id" (.str "unknown")
  ({ self with data_store := dictSet self.data_store data_id data }, true)

/-- `DatabaseRepository.load`: returns the stored dict, or the canned
default dict when the id is absent. -/
def DatabaseRepository.load (self : DatabaseRepository) (id : PyVal) : Pdict :=
  match dictGet self.data_store id with
  | some d => d
  | none => [("id", id), ("data", .str "Data from database")]

/-- State of a `FileRepository` instance: the base path and the
per-instance `files` dict created in `__init__`. -/
structure FileRepository where
  base_path : String
  files : List (String × Pdict)
deriving DecidableEq

/-- The filename `FileRepository` builds for an id. -/
def FileRepository.filenameFor (base_path : String) (id : PyVal) : String :=
  base_path ++ "/" ++ id.pyStr ++ ".json"

/-- `FileRepository.save`: stores the dict under the filename built from
its `id` value and returns `True`. -/
def FileRepository.save (self : FileRepository) (data : Pdict) :
    FileRepository × Bool :=
  let data_id := pdictGet data "id" (.str "unknown")
  let filename := FileRepository.filenameFor self.base_path data_id
  ({ self with files := dictSet self.files filename data }, true)

/-- `FileRepository.load`: looks the filename built from the id up, or
returns the canned default dict. -/
def FileRepository.load (self : FileRepository) (id : PyVal) : Pdict :=
  let filename := FileRepository.filenameFor self.base_path id
  match dictGet self.files filename with
  | some d => d
  | none => [("id", id), ("data", .str "Data from file")]

/-- State of a `CloudRepository` instance: the provider and the
per-instance `cloud_storage` dict created in `__init__`. -/
structure CloudRepository where
  cloud_provider : String
  cloud_storage : List (PyVal × Pdict)
deriving DecidableEq

/-- `CloudRepository.save`: stores the dict under its `id` value and
returns `True`. -/
def CloudRepository.save (self : CloudRepository) (data : Pdict) :
    CloudRepository × Bool :=
  let data_id := pdictGet data "id" (.str "unknown")
  ({ self with cloud_storage := dictSet self.cloud_storage data_id data }, true)

/-- `CloudRepository.load`: returns the stored dict, or the canned
default dict. -/
def CloudRepository.load (self : CloudRepository) (id : PyVal) : Pdict :=
  match dictGet self.cloud_storage id with
  | some d => d
  | none => [("id", id), ("data", .str "Data from cloud")]

/-- A `DataRepository` instance of any of the three concrete classes. -/
inductive DataRepositoryObj where
  | database (self : DatabaseRepository)
  | file (self : FileRepository)
  | cloud (self : CloudRepository)
deriving DecidableEq

/-- Dynamic dispatch of `save` on a `DataRepository` instance. -/
def DataRepositoryObj.save : DataRepositoryObj → Pdict → DataRepositoryObj × Bool
  | .database self, data =>
      let r := self.save data
      (.database r.1, r.2)
  | .file self, data =>
      let r := self.save data
      (.file r.1, r.2)
  | .cloud self, data =>
      let r := self.save data
      (.cloud r.1, r.2)

/-- Dynamic dispatch of `load` on a `DataRepository` instance. -/
def DataRepositoryObj.load : DataRepositoryObj → PyVal → Pdict
  | .database self, id => self.load id
  | .file self, id => self.load id
  | .cloud self, id => self.load id

/-- A heap of repository objects: Python object identity is modelled by
the position in the list, so two distinct instances are two distinct
positions. -/
abbrev RepoHeap := List DataRepositoryObj

/-- `X.save(d)` where `X` is the object at heap position `i`: mutates
only that object's state. -/
def heapSave (h : RepoHeap) (i : Nat) (d : Pdict) : RepoHeap :=
  match h[i]? with
  | some r => h.set i (r.save d).1
  | none => h

/-- `X.load(id)` where `X` is the object at heap position `i`. -/
def heapLoad (h : RepoHeap) (i : Nat) (id : PyVal) : Option Pdict :=
  h[i]?.map (fun r => r.load id)

end Dip

namespace Srp

/-- The `User` record of `srp_example.py`. -/
structure User where
  username : String
  email : String
  password : String
deriving DecidableEq

/-- `EmailValidator.is_valid`: `'@' in email and '.' in email and
len(email) > 5`. -/
def EmailValidator.is_valid (email : String) : Bool :=
  email.contains '@' && email.contains '.' && decide (email.length > 5)

/-- `EmailValidator.validate_format`: raises `ValueError` on an invalid
email. -/
def EmailValidator.validate_format (email : String) : Except PyError Unit :=
  if EmailValidator.is_valid email then .ok ()
  else .error (.valueError ("Email inválido: " ++ email))

/-- `PasswordEncryptor.encrypt` calls `hashlib.md5(...).hexdigest()`, a
library function external to the repository; the digest function is
passed in as the parameter `md5hex`. -/
def PasswordEncryptor.encrypt (md5hex : String → String) (password : String) : String :=
  md5hex password

/-- `UserRepository.save`: appends the user to the per-instance `users`
list. -/
def UserRepository.save (users : List User) (user : User) : List User :=
  users ++ [user]

/-- `UserService.register_user`, transcribed from `srp_example.py`: the
`try` block validates, encrypts, builds the `User`, saves it and returns
it; the `except ValueError` arm returns `None` without touching the
repository.  The result is the returned value together with the
repository's user list after the call. -/
def UserService.register_user (md5hex : String → String)
    (username email password : String) (users : List User) :
    Option User × List User :=
  match EmailValidator.validate_format email with
  | .error _ => (none, users)
  | .ok _ =>
      let encrypted_password := PasswordEncryptor.encrypt md5hex password
      let user : User := { username := username, email := email, password := encrypted_password }
      (some user, UserRepository.save users user)

end Srp

/-! ## Helper lemmas -/

/-- Looking a key up right after setting it yields the stored value. -/
theorem dictGet_dictSet_self {α β : Type} [DecidableEq α]
    (l : List (α × β)) (k : α) (v : β) : dictGet (dictSet l k v) k = some v := by
  unfold dictGet dictSet
  rw [List.find?_cons_of_pos]
  · rfl
  · simp

namespace Lsp

/-- A square state stays square under any sequence of `Square` setter
calls, and its side is the most recent setter argument. -/
theorem Square.applyCalls_eq (color : String) (side : ℚ) (calls : List SetterCall) :
    Square.applyCalls { color := color, width := side, height := side } calls =
      { color := color, width := lastSetterArg side calls,
        height := lastSetterArg side calls } := by
  induction calls generalizing side with
  | nil => rfl
  | cons c rest ih =>
      cases c with
      | set_width w =>
          simpa [Square.applyCalls, Square.applyCall, Square.set_width,
            lastSetterArg] using ih w
      | set_height h =>
          simpa [Square.applyCalls, Square.applyCall, Square.set_height,
            lastSetterArg] using ih h

end Lsp

/-! ## Claim theorems -/

namespace Ocp

/-- C2: every payment variant's `process_payment` returns a dict with
exactly the keys `status` and `transaction_id`, in that order, both
bound to strings — for every hash function, amount and details dict. -/
theorem process_payment_result_shape (h : String → Nat)
    (proc : PaymentProcessor) (amount : ℚ)
    (payment_details : List (String × String)) :
    (PaymentProcessor.process_payment h proc amount payment_details).map Prod.fst =
        ["status", "transaction_id"] ∧
      (PaymentProcessor.process_payment h proc amount payment_details).all
        (fun kv => kv.2.isStr) = true := by
  cases proc <;> exact ⟨rfl, rfl⟩

/-- C4: `GoodAreaCalculator.calculate_area` is pure dispatch — it equals
the shape's own `calculate_area` for every variant — and on the variants
that existed before `Triangle` and `Pentagon` were added it returns
exactly what the unextended family returned, so adding the new variants
changes no pre-existing result. -/
theorem good_area_calculator_pure_dispatch :
    (∀ s : Shape, GoodAreaCalculator.calculate_area s = s.calculate_area) ∧
      ∀ s : ShapeBeforeExtension,
        GoodAreaCalculator.calculate_area s.toShape = s.calculate_area := by
  refine ⟨fun s => rfl, fun s => ?_⟩
  cases s <;> rfl

end Ocp

namespace Lsp

/-- C7: `BadPenguin.fly` and `BadBicycle.start_engine` raise the typed
`NotImplementedError` with their fixed messages on every invocation, for
every instance. -/
theorem bad_stub_methods_raise_not_implemented
    (p : BadPenguin) (b : BadBicycle) :
    p.fly = .error (.notImplementedError "Los pingüinos no pueden volar!") ∧
      b.start_engine =
        .error (.notImplementedError "Las bicicletas no tienen motor!") :=
  ⟨rfl, rfl⟩

/-- C8: for every `Square` and every sequence of `set_width` /
`set_height` calls, width equals height, the area is the square of the
most recent setter argument (or the constructor side) and the perimeter
is four times it. -/
theorem square_invariant_preserved (color : String) (side : ℚ)
    (calls : List SetterCall) :
    (Square.applyCalls (Square.init color side) calls).width =
        (Square.applyCalls (Square.init color side) calls).height ∧
      (Square.applyCalls (Square.init color side) calls).calculate_area =
        lastSetterArg side calls ^ 2 ∧
      (Square.applyCalls (Square.init color side) calls).calculate_perimeter =
        4 * lastSetterArg side calls := by
  rw [Square.init, Square.applyCalls_eq]
  refine ⟨rfl, ?_, ?_⟩
  · simp [Rectangle.calculate_area]; ring
  · simp [Rectangle.calculate_perimeter]; ring

end Lsp

namespace Dip

/-- C6: every `MessageSender` variant's `send_message` returns `True`
for every message and recipient, and so does
`NotificationService.send_notification`. -/
theorem send_message_always_true (sender : MessageSender)
    (message recipient : String) :
    (sender.send_message message recipient).2 = true ∧
      ((NotificationService.mk sender).send_notification message recipient).2 =
        true := by
  cases sender <;> exact ⟨rfl, rfl⟩

/-- C5: saving through the repository instance at one heap position
leaves every `load` observation of any other instance unchanged — the
three repository classes keep their stores in per-instance attributes,
so no hidden shared state connects two distinct instances. -/
theorem repository_no_cross_contamination (h : RepoHeap) (a b : Nat)
    (hab : a ≠ b) (d : Pdict) (i : PyVal) :
    heapLoad (heapSave h a d) b i = heapLoad h b i := by
  unfold heapSave heapLoad
  cases hga : h[a]? with
  | none => rfl
  | some r => rw [List.getElem?_set_ne hab]

/-- Witness for C5 at a concrete heap of a `DatabaseRepository` and a
`FileRepository` instance. -/
theorem repository_no_cross_contamination_witness :
    heapLoad
        (heapSave
          [DataRepositoryObj.database ⟨"jdbc:mysql://localhost:3306/mydb", []⟩,
           DataRepositoryObj.file ⟨"/data/files", []⟩]
          0 [("id", .str "product_001"), ("name", .str "Laptop")])
        1 (.str "product_001") =
      heapLoad
        [DataRepositoryObj.database ⟨"jdbc:mysql://localhost:3306/mydb", []⟩,
         DataRepositoryObj.file ⟨"/data/files", []⟩]
        1 (.str "product_001") :=
  repository_no_cross_contamination _ 0 1 (by decide) _ _

/-- C10: for every repository instance of any of the three classes,
every prior state and every dict that carries an `id` key, `save`
followed by `load` of that id returns the dict itself. -/
theorem save_load_round_trip (r : DataRepositoryObj) (d : Pdict) (v : PyVal)
    (h : dictGet d "id" = some v) : ((r.save d).1).load v = d := by
  have hid : pdictGet d "id" (.str "unknown") = v := by
    unfold pdictGet
    rw [h]
  cases r with
  | database st =>
      simp [DataRepositoryObj.save, DataRepositoryObj.load,
        DatabaseRepository.save, DatabaseRepository.load, hid,
        dictGet_dictSet_self]
  | file st =>
      simp [DataRepositoryObj.save, DataRepositoryObj.load,
        FileRepository.save, FileRepository.load, hid, dictGet_dictSet_self]
  | cloud st =>
      simp [DataRepositoryObj.save, DataRepositoryObj.load,
        CloudRepository.save, CloudRepository.load, hid, dictGet_dictSet_self]

/-- Witness for C10 on a concrete `FileRepository` instance. -/
theorem save_load_round_trip_witness :
    ((DataRepositoryObj.file ⟨"/data/files", []⟩).save
          [("id", .str "user_001"), ("name", .str "Ana García")]).1.load
        (.str "user_001") =
      [("id", .str "user_001"), ("name", .str "Ana García")] :=
  save_load_round_trip _ _ _ (by rfl)

end Dip

namespace Srp

/-- C9: `UserService.register_user` is atomic — when the email fails
`EmailValidator.is_valid` (lacks `@` or `.` or has length at most 5) it
returns `None` and leaves the repository untouched; otherwise it appends
exactly one `User`, whose password field is the digest of the given
password, and returns that user. -/
theorem register_user_atomic (md5hex : String → String)
    (username email password : String) (users : List User) :
    UserService.register_user md5hex username email password users =
      if email.contains '@' && email.contains '.' && decide (email.length > 5)
      then (some { username := username, email := email, password := md5hex password },
            users ++ [{ username := username, email := email, password := md5hex password }])
      else (none, users) := by
  have hcond : (email.contains '@' && email.contains '.' &&
      decide (email.length > 5)) = EmailValidator.is_valid email := rfl
  rw [hcond]
  cases hv : EmailValidator.is_valid email with
  | false =>
      simp [UserService.register_user, EmailValidator.validate_format, hv]
  | true =>
      simp [UserService.register_user, EmailValidator.validate_format, hv,
        PasswordEncryptor.encrypt, UserRepository.save]

end Srp

namespace Isp

/-- C1 counterexample: `BadSimplePrinter` overrides every abstract
method of `BadMultiFunctionDevice` (stubbing most of them to raise), so
its instantiation — the code-level registration step the claim points
at — succeeds, and the failure only fires at the first call of a stubbed
method such as `print_color`. -/
theorem bad_simple_printer_instantiation_succeeds :
    pythonInstantiate BadMultiFunctionDevice.abstractmethods
        BadSimplePrinter.defined_methods = .ok () ∧
      BadSimplePrinter.print_color "documento" =
        .error (.notImplementedError "Esta impresora no soporta color") :=
  ⟨rfl, rfl⟩

/-- C1 amended: in the spec's registry, registering a variant that omits
(does not expose) a method required by a claimed capability fails at
registration time with `IncompleteImplementationError`, never silently
succeeding. -/
theorem register_variant_rejects_omitted_method (v : Variant)
    (caps : List Capability) (c : Capability) (m : String) (hc : c ∈ caps)
    (hm : m ∈ c.methods) (hv : m ∉ v.methods) :
    register_variant v caps = .error .incompleteImplementation := by
  have hfalse :
      (caps.all fun c => c.methods.all fun m => decide (m ∈ v.methods)) = false := by
    rw [List.all_eq_false]
    refine ⟨c, hc, ?_⟩
    rw [Bool.not_eq_true, List.all_eq_false]
    exact ⟨m, hm, by simpa using hv⟩
  simp [register_variant, hfalse]

/-- Witness for the amended C1 at a concrete incomplete variant. -/
theorem register_variant_rejects_omitted_method_witness :
    register_variant ⟨"BadSimplePrinterAsVariant", ["print_document"]⟩
        [⟨"multifunction", ["print_document", "scan_document"]⟩] =
      .error .incompleteImplementation :=
  register_variant_rejects_omitted_method _ _
    ⟨"multifunction", ["print_document", "scan_document"]⟩ "scan_document"
    (by decide) (by decide) (by decide)

end Isp

namespace Ocp

/-- C3 counterexample: `HolidayDiscount` accepts any constructor
percentage, and at 200 percent the discounted value of the amount 100 is
-100, which violates the claimed bound `0 ≤ v`. -/
theorem holiday_discount_exceeds_bounds :
    (DiscountStrategy.HolidayDiscount "Black Friday" 200).apply_discount 100 =
        -100 ∧
      ¬(0 ≤ (DiscountStrategy.HolidayDiscount "Black Friday" 200).apply_discount
          100) := by
  constructor
  · norm_num [DiscountStrategy.apply_discount]
  · norm_num [DiscountStrategy.apply_discount]

/-- C3 amended: every `DiscountStrategy` variant whose discount
percentage lies in [0, 100] — which the four fixed variants always do —
returns, for every amount at least 0, a value between 0 and the
amount. -/
theorem apply_discount_within_bounds (s : DiscountStrategy) (amount : ℚ)
    (hs : s.percentageInRange = true) (ha : 0 ≤ amount) :
    0 ≤ s.apply_discount amount ∧ s.apply_discount amount ≤ amount := by
  cases s with
  | RegularCustomerDiscount =>
      exact ⟨mul_nonneg ha (by norm_num), mul_le_of_le_one_right ha (by norm_num)⟩
  | VIPCustomerDiscount =>
      exact ⟨mul_nonneg ha (by norm_num), mul_le_of_le_one_right ha (by norm_num)⟩
  | StudentDiscount =>
      exact ⟨mul_nonneg ha (by norm_num), mul_le_of_le_one_right ha (by norm_num)⟩
  | SeniorDiscount =>
      exact ⟨mul_nonneg ha (by norm_num), mul_le_of_le_one_right ha (by norm_num)⟩
  | HolidayDiscount holiday_name discount_percentage =>
      simp only [DiscountStrategy.percentageInRange, Bool.and_eq_true,
        decide_eq_true_eq] at hs
      obtain ⟨hp0, hp1⟩ := hs
      have hdiv1 : discount_percentage / 100 ≤ 1 :=
        (div_le_one (by norm_num : (0:ℚ) < 100)).mpr hp1
      have hdiv0 : 0 ≤ discount_percentage / 100 :=
        div_nonneg hp0 (by norm_num)
      have hm0 : 0 ≤ 1 - discount_percentage / 100 := by linarith
      have hm1 : 1 - discount_percentage / 100 ≤ 1 := by linarith
      exact ⟨mul_nonneg ha hm0, mul_le_of_le_one_right ha hm1⟩

/-- Witness for the amended C3 at a concrete in-range holiday discount
and amount. -/
theorem apply_discount_within_bounds_witness :
    0 ≤ (DiscountStrategy.HolidayDiscount "Black Friday" 30).apply_discount 100 ∧
      (DiscountStrategy.HolidayDiscount "Black Friday" 30).apply_discount 100 ≤
        100 :=
  apply_discount_within_bounds _ 100 (by decide) (by norm_num)

end Ocp
